import Mathlib

/-!
Verification of the ChatWidget component
(src/components/ChatWidget/ChatWidget.jsx).

The component is a chat widget backed by a remote message store: it
fetches history on open, subscribes to realtime INSERT events, persists
user messages, and schedules a scripted bot reply one second later.
This file gives a shallow embedding of its state and handlers and proves
the specified properties about them.

Modelling conventions:
* timestamps and logical times are natural numbers (minutes / milliseconds
  where relevant);
* a message id is `Option Nat`: `none` models a row whose id has not been
  assigned (JavaScript `undefined`); `===` on ids is modelled by equality
  on `Option Nat` (so `undefined === undefined` is true);
* asynchronous handlers are modelled as pure functions that additionally
  return the ordered trace of observable events they emit.
-/

/-- A chat message row.  `id` is assigned by the remote store and is
absent (`none`) until then; `timestamp` is a point in logical time. -/
structure Message where
  id : Option Nat
  text : String
  sender : String
  timestamp : Nat
deriving DecidableEq, Repr

/-- The realtime-subscription INSERT callback (ChatWidget.jsx lines 77-85):
`setMessages(prev => prev.find(msg => msg.id === payload.new.id) ? prev
: [...prev, payload.new])`.  Dedup is by id only, with JavaScript `===`
semantics on possibly-absent ids. -/
def onRemoteInsert (prev : List Message) (incoming : Message) : List Message :=
  match prev.find? (fun m => m.id == incoming.id) with
  | some _ => prev
  | none => prev ++ [incoming]

/-- The ids currently visible in a message list. -/
def visibleIds (l : List Message) : List (Option Nat) :=
  l.map Message.id

/-- The `onRemoteInsert` behaviour the spec describes, written from the
spec's words for comparison with the source's `onRemoteInsert`: dedup by
id when the incoming message has one, and by the (sender, text, timestamp)
fallback key when it does not. -/
def onRemoteInsertSpec (prev : List Message) (incoming : Message) : List Message :=
  match incoming.id with
  | some _ =>
    if prev.any (fun m => m.id == incoming.id) then prev else prev ++ [incoming]
  | none =>
    if prev.any (fun m =>
        m.sender == incoming.sender && m.text == incoming.text
          && m.timestamp == incoming.timestamp)
    then prev else prev ++ [incoming]

/-- The component's local state (ChatWidget.jsx lines 14-18).  Field names
follow the source: `inputValue` is the draft input, `error` is `null` or a
user-facing string. -/
structure ChatState where
  messages : List Message
  inputValue : String
  isOpen : Bool
  loading : Bool
  error : Option String
deriving DecidableEq, Repr

/-- Outcome of a single remote-store call: success, an error object
returned in the response, or a thrown exception. -/
inductive StoreResult where
  | ok
  | queryError
  | thrown
deriving DecidableEq, Repr

/-- Observable events emitted (in order) while a submit intent runs.
`persistCall text sender t` is an insert request issued to the remote
store at logical time `t`; `persistSettled t` is that call's promise
resolving; `errorLogged t` is a console log of a swallowed failure;
`clearInput t` is `setInputValue('')`; `timerScheduled d t` is a
`setTimeout` of `d` ms registered at time `t`. -/
inductive SubmitEvent where
  | persistCall (text sender : String) (time : Nat)
  | persistSettled (time : Nat)
  | errorLogged (time : Nat)
  | clearInput (time : Nat)
  | timerScheduled (delay : Nat) (time : Nat)
deriving DecidableEq, Repr

/-- `saveMessageToSupabase` (ChatWidget.jsx lines 110-130): issues one
insert with the message's text, sender and timestamp; a returned error or
a thrown exception is caught, logged, and swallowed, so the call always
settles normally whatever the store does. -/
def saveMessageToSupabase (text sender : String) (t : Nat)
    (res : StoreResult) : List SubmitEvent :=
  match res with
  | .ok => [.persistCall text sender t, .persistSettled t]
  | .queryError => [.persistCall text sender t, .errorLogged t, .persistSettled t]
  | .thrown => [.persistCall text sender t, .errorLogged t, .persistSettled t]

/-- JavaScript `String.prototype.trim`: strip leading and trailing
whitespace.  Defined structurally over the character list so that concrete
instances reduce inside the kernel. -/
def jsTrim (s : String) : String :=
  String.mk (((s.data.dropWhile Char.isWhitespace).reverse.dropWhile
    Char.isWhitespace).reverse)

/-- The bot reply template (ChatWidget.jsx line 157). -/
def botTemplate (input : String) : String :=
  "\"" ++ input ++ "\" 라고 입력하셨습니다. 저는 고전적인 봇입니다."

/-- `handleSendMessage` (ChatWidget.jsx lines 135-164), together with the
scheduled bot-reply callback it registers.  Logical time `t0` is the
submit instant; the store's outcomes for the user and bot inserts are
`userRes` and `botRes`.  Returns the final state and the ordered event
trace: early return on empty trimmed input; otherwise persist the user
message (awaited), clear the input, schedule a 1000 ms timer, and when it
fires persist the bot message.  `messages` is never written (the
`setMessages` calls are commented out in the source). -/
def handleSendMessage (st : ChatState) (t0 : Nat)
    (userRes botRes : StoreResult) : ChatState × List SubmitEvent :=
  let trimmedInput := jsTrim st.inputValue
  if trimmedInput = "" then (st, [])
  else
    ({ st with inputValue := "" },
      saveMessageToSupabase trimmedInput "user" t0 userRes
        ++ [.clearInput t0, .timerScheduled 1000 t0]
        ++ saveMessageToSupabase (botTemplate trimmedInput) "bot" (t0 + 1000) botRes)

/-- A submit intent as the UI can actually deliver it: the input field and
send button carry `disabled={loading || !!error}` (ChatWidget.jsx lines
275 and 280), so no submit or keypress event reaches `handleSendMessage`
while loading or while an error is shown. -/
def submitIntent (st : ChatState) (t0 : Nat)
    (userRes botRes : StoreResult) : ChatState × List SubmitEvent :=
  if st.loading || st.error.isSome then (st, [])
  else handleSendMessage st t0 userRes botRes

/-- The insert requests of a trace, in order: (text, sender, time). -/
def persistCallsOf : List SubmitEvent → List (String × String × Nat)
  | [] => []
  | .persistCall text sender t :: rest => (text, sender, t) :: persistCallsOf rest
  | _ :: rest => persistCallsOf rest

/-- What the history query returns: `ok data` carries the rows (possibly
`none`, i.e. a null payload), or the response carries an error object, or
the await throws. -/
inductive FetchResult where
  | ok (data : Option (List Message))
  | queryError
  | thrown
deriving DecidableEq, Repr

/-- One event per history query issued; the flag records that the query
orders by timestamp ascending (`.order('timestamp', { ascending: true })`). -/
inductive FetchEvent where
  | queryIssued (orderByTimestampAscending : Bool)
deriving DecidableEq, Repr

/-- The state `fetchMessages` establishes before awaiting the query
(ChatWidget.jsx lines 36-37): `setLoading(true); setError(null)`. -/
def fetchStart (st : ChatState) : ChatState :=
  { st with loading := true, error := none }

/-- User-facing message for a query that returns an error object. -/
def fetchErrorText : String := "채팅 기록을 불러오는 데 실패했습니다."

/-- User-facing message for an exception thrown during the fetch. -/
def fetchThrownText : String := "알 수 없는 오류로 채팅 기록을 불러올 수 없습니다."

/-- How `fetchMessages` settles once the query resolves (ChatWidget.jsx
lines 44-56): on success replace `messages` with `data || []`; on a
returned error or a thrown exception set a user-facing error string and
clear `messages`; in every case finish with `setLoading(false)`. -/
def fetchFinish (st : ChatState) (res : FetchResult) : ChatState :=
  match res with
  | .ok data => { st with messages := data.getD [], loading := false }
  | .queryError =>
    { st with error := some fetchErrorText, messages := [], loading := false }
  | .thrown =>
    { st with error := some fetchThrownText, messages := [], loading := false }

/-- `fetchMessages` (ChatWidget.jsx lines 35-57) end to end: start phase,
exactly one query (no retry on failure), finish phase. -/
def fetchMessages (st : ChatState) (res : FetchResult) :
    ChatState × List FetchEvent :=
  (fetchFinish (fetchStart st) res, [.queryIssued true])

/-- Hour and minute of a timestamp, 24-hour clock, as rendered by
`toLocaleTimeString([], { hour12: false, hour: '2-digit',
minute: '2-digit' })`; timestamps are minutes of local time. -/
def formatHM (t : Nat) : Nat × Nat :=
  ((t / 60) % 24, t % 60)

/-- Sender label shown next to a message (ChatWidget.jsx line 224). -/
def senderLabel (sender : String) : String :=
  if sender = "user" then "나:" else "봇:"

/-- What the message area renders (ChatWidget.jsx lines 184-236). -/
inductive RenderOutput where
  | loadingPlaceholder
  | errorPlaceholder (text : String)
  | greeting (clock : Nat × Nat)
  | messageList (entries : List (String × String × (Nat × Nat)))
deriving DecidableEq, Repr

/-- `renderMessages` (ChatWidget.jsx lines 184-236): loading placeholder,
else error placeholder, else greeting with the current local time when
the history is empty, else the mapped message list where each entry shows
the sender label, the text, and the timestamp as hour:minute. -/
def renderMessages (st : ChatState) (now : Nat) : RenderOutput :=
  if st.loading then .loadingPlaceholder
  else
    match st.error with
    | some e => .errorPlaceholder e
    | none =>
      if st.messages.isEmpty then .greeting (formatHM now)
      else .messageList (st.messages.map fun m =>
        (senderLabel m.sender, m.text, formatHM m.timestamp))

/-- Observable open/close lifecycle of the widget, modelling the
`useEffect` with dependency `isOpen` (ChatWidget.jsx lines 68-98):
`fetchCount` counts history fetches, `subsCreated` counts subscriptions
ever established, `activeSubs` counts subscriptions not yet removed. -/
structure WidgetSys where
  isOpen : Bool
  activeSubs : Nat
  fetchCount : Nat
  subsCreated : Nat
deriving DecidableEq, Repr

/-- Setting `isOpen := true`.  React re-runs the effect only when a
dependency changed, so opening an already-open widget does nothing; a
false-to-true transition runs the effect body: one `fetchMessages()` and
one `supabase.channel(...).subscribe()`. -/
def openWidget (w : WidgetSys) : WidgetSys :=
  if w.isOpen then w
  else
    { isOpen := true, activeSubs := w.activeSubs + 1,
      fetchCount := w.fetchCount + 1, subsCreated := w.subsCreated + 1 }

/-- Setting `isOpen := false`.  The true-to-false transition runs the
effect cleanup, `supabase.removeChannel(channel)`; the else branch of the
effect body does nothing (its statements are commented out). -/
def closeWidget (w : WidgetSys) : WidgetSys :=
  if w.isOpen then
    { w with isOpen := false, activeSubs := w.activeSubs - 1 }
  else w

/-- A stored message without an id, used to compare the implemented dedup
with the spec's described dedup. -/
def msgA : Message := ⟨none, "a", "user", 1⟩

/-- An incoming realtime message without an id whose fallback key
(sender, text, timestamp) differs from msgA's. -/
def msgB : Message := ⟨none, "b", "bot", 2⟩

/-- The ordering property claimed for the draft clear: some clearInput
event occurs strictly before the user persist call settles. -/
def clearBeforeUserSettle (tr : List SubmitEvent) (t0 : Nat) : Prop :=
  ∃ i : Fin tr.length, ∃ j : Fin tr.length,
    i.val < j.val ∧ tr.get i = .clearInput t0 ∧ tr.get j = .persistSettled t0

/-- The ordering the code implements: the user persist settles strictly
before the input clears (`await saveMessageToSupabase(...)` precedes
`setInputValue('')`, ChatWidget.jsx lines 150-152). -/
def userSettleBeforeClear (tr : List SubmitEvent) (t0 : Nat) : Prop :=
  ∃ i : Fin tr.length, ∃ j : Fin tr.length,
    i.val < j.val ∧ tr.get i = .persistSettled t0 ∧ tr.get j = .clearInput t0

instance (tr : List SubmitEvent) (t0 : Nat) :
    Decidable (clearBeforeUserSettle tr t0) :=
  decidable_of_iff
    (∃ i : Fin tr.length, ∃ j : Fin tr.length,
      i.val < j.val ∧ tr.get i = .clearInput t0 ∧ tr.get j = .persistSettled t0)
    Iff.rfl

instance (tr : List SubmitEvent) (t0 : Nat) :
    Decidable (userSettleBeforeClear tr t0) :=
  decidable_of_iff
    (∃ i : Fin tr.length, ∃ j : Fin tr.length,
      i.val < j.val ∧ tr.get i = .persistSettled t0 ∧ tr.get j = .clearInput t0)
    Iff.rfl

/-- onRemoteInsert preserves pairwise-distinct ids. -/
theorem onRemoteInsert_nodup (prev : List Message) (m : Message)
    (h : (visibleIds prev).Nodup) : (visibleIds (onRemoteInsert prev m)).Nodup := by
  unfold onRemoteInsert
  cases hf : prev.find? (fun x => x.id == m.id) with
  | some _ => exact h
  | none =>
    have hnone : ∀ x ∈ prev, x.id ≠ m.id := by
      intro x hx heq
      have := List.find?_eq_none.mp hf x hx
      simp [heq] at this
    have hnotmem : m.id ∉ visibleIds prev := by
      intro hmem
      rcases List.mem_map.mp hmem with ⟨x, hx, hxe⟩
      exact hnone x hx hxe
    simp only [visibleIds, List.map_append, List.map_cons, List.map_nil]
    exact List.Nodup.append h (List.nodup_singleton _)
      (by
        intro a ha hb
        simp only [List.mem_singleton] at hb
        subst hb
        exact hnotmem ha)

/-- Delivering an event whose id is already visible leaves the list unchanged. -/
theorem onRemoteInsert_dup_noop (prev : List Message) (m : Message)
    (h : m.id ∈ visibleIds prev) : onRemoteInsert prev m = prev := by
  unfold onRemoteInsert
  rcases List.mem_map.mp h with ⟨x, hx, hxe⟩
  cases hf : prev.find? (fun y => y.id == m.id) with
  | some _ => rfl
  | none =>
    exfalso
    have := List.find?_eq_none.mp hf x hx
    simp [hxe] at this

/-- Delivering an event whose id is not yet visible appends it. -/
theorem onRemoteInsert_fresh (prev : List Message) (m : Message)
    (h : m.id ∉ visibleIds prev) : onRemoteInsert prev m = prev ++ [m] := by
  unfold onRemoteInsert
  cases hf : prev.find? (fun y => y.id == m.id) with
  | some x =>
    exfalso
    have hx := List.mem_of_find?_eq_some hf
    have hxe := List.find?_some hf
    simp only [beq_iff_eq] at hxe
    exact h (List.mem_map.mpr ⟨x, hx, hxe⟩)
  | none => rfl

/-- Folding a whole sequence of realtime inserts preserves distinct ids. -/
theorem onRemoteInsert_fold_nodup (evs : List Message) (init : List Message)
    (h : (visibleIds init).Nodup) :
    (visibleIds (evs.foldl onRemoteInsert init)).Nodup := by
  induction evs generalizing init with
  | nil => exact h
  | cons e rest ih =>
    exact ih (onRemoteInsert init e) (onRemoteInsert_nodup init e h)

/-- C1: over any sequence of realtime insert events, including duplicates,
the visible message list keeps each id at most once; an event whose id is
already present leaves the list unchanged, and a not-yet-present id grows
the list by exactly 1 even when the same row is delivered twice. -/
theorem claim_realtime_dedup (init evs prev : List Message) (m : Message)
    (hinit : (visibleIds init).Nodup) :
    (visibleIds (evs.foldl onRemoteInsert init)).Nodup
    ∧ (m.id ∈ visibleIds prev → onRemoteInsert prev m = prev)
    ∧ (m.id ∉ visibleIds prev →
        (onRemoteInsert prev m).length = prev.length + 1
        ∧ (onRemoteInsert (onRemoteInsert prev m) m).length = prev.length + 1) := by
  refine ⟨onRemoteInsert_fold_nodup evs init hinit, onRemoteInsert_dup_noop prev m, ?_⟩
  intro h
  have h1 : onRemoteInsert prev m = prev ++ [m] := onRemoteInsert_fresh prev m h
  have hmem : m.id ∈ visibleIds (prev ++ [m]) := by
    simp [visibleIds]
  constructor
  · rw [h1]; simp
  · rw [h1, onRemoteInsert_dup_noop (prev ++ [m]) m hmem]; simp

/-- Witness for claim_realtime_dedup at a concrete run. -/
theorem claim_realtime_dedup_witness :
    (visibleIds ([] : List Message)).Nodup
    ∧ (visibleIds (([⟨some 1, "hi", "bot", 0⟩] : List Message).foldl
        onRemoteInsert [])).Nodup :=
  ⟨by decide,
    (claim_realtime_dedup [] [⟨some 1, "hi", "bot", 0⟩] [] ⟨some 1, "hi", "bot", 0⟩
      (by decide)).1⟩

/-- C2: a submit intent is a no-op — no persist call, no state change —
when the trimmed draft is empty, or while loading, or while an error is
shown (the latter two because the input form is disabled then). -/
theorem claim_submit_noop (st : ChatState) (t0 : Nat) (u b : StoreResult)
    (h : jsTrim st.inputValue = "" ∨ st.loading = true ∨ st.error.isSome = true) :
    submitIntent st t0 u b = (st, []) := by
  unfold submitIntent handleSendMessage
  rcases h with h | h | h
  · by_cases hl : (st.loading || st.error.isSome) = true
    · simp [hl]
    · simp only [Bool.not_eq_true] at hl
      simp [hl, h]
  · simp [h]
  · simp [h]

/-- Witness for claim_submit_noop: a whitespace-only draft. -/
theorem claim_submit_noop_witness :
    jsTrim (ChatState.mk [] "  " true false none).inputValue = ""
    ∧ submitIntent (ChatState.mk [] "  " true false none) 0 .ok .ok
        = (ChatState.mk [] "  " true false none, []) :=
  ⟨by decide,
    claim_submit_noop (ChatState.mk [] "  " true false none) 0 .ok .ok
      (Or.inl (by decide))⟩

/-- C4: fetchMessages first sets loading and clears the error; on success
it replaces messages with the returned rows (the single query orders by
timestamp ascending) and clears loading; on a query error or a thrown
exception it sets a user-facing error string, empties messages and clears
loading; and it issues exactly one query, so a failure is not retried. -/
theorem claim_fetch_spec (st : ChatState) (rows : Option (List Message))
    (res : FetchResult) :
    (fetchStart st).loading = true
    ∧ (fetchStart st).error = none
    ∧ (fetchMessages st (.ok rows)).1
        = { st with messages := rows.getD [], loading := false, error := none }
    ∧ (fetchMessages st .queryError).1
        = { st with messages := [], loading := false, error := some fetchErrorText }
    ∧ (fetchMessages st .thrown).1
        = { st with messages := [], loading := false, error := some fetchThrownText }
    ∧ (fetchMessages st res).2 = [.queryIssued true] :=
  ⟨rfl, rfl, rfl, rfl, rfl, rfl⟩

/-- C5: a submit intent never writes the messages field — the message list
after the handler and its scheduled bot callback equals the list
before; only the subscription feed can change it. -/
theorem claim_submit_frame (st : ChatState) (t0 : Nat) (u b : StoreResult) :
    (submitIntent st t0 u b).1.messages = st.messages
    ∧ (handleSendMessage st t0 u b).1.messages = st.messages
    ∧ (submitIntent st t0 u b).1.isOpen = st.isOpen
    ∧ (submitIntent st t0 u b).1.loading = st.loading
    ∧ (submitIntent st t0 u b).1.error = st.error := by
  unfold submitIntent handleSendMessage
  by_cases hg : (st.loading || st.error.isSome) = true <;>
    by_cases ht : jsTrim st.inputValue = "" <;>
      simp_all

/-- C3: a submit with a non-empty trimmed draft issues exactly two persist
calls: the user message with the trimmed text at the submit instant, and
the scripted bot reply — the deterministic template around the trimmed
text — exactly 1000 ms of logical time later. -/
theorem claim_submit_persist_calls (st : ChatState) (t0 : Nat)
    (u b : StoreResult) (hin : jsTrim st.inputValue ≠ "")
    (hl : st.loading = false) (he : st.error = none) :
    persistCallsOf (submitIntent st t0 u b).2
      = [(jsTrim st.inputValue, "user", t0),
         (botTemplate (jsTrim st.inputValue), "bot", t0 + 1000)]
    ∧ botTemplate "hello"
      = "\"hello\" 라고 입력하셨습니다. 저는 고전적인 봇입니다." := by
  constructor
  · unfold submitIntent handleSendMessage
    simp only [hl, he, Option.isSome_none, Bool.or_false]
    cases u <;> cases b <;> simp [saveMessageToSupabase, persistCallsOf, hin]
  · rfl

/-- Witness for claim_submit_persist_calls on the draft "hello". -/
theorem claim_submit_persist_calls_witness :
    jsTrim (ChatState.mk [] "hello" true false none).inputValue ≠ ""
    ∧ (persistCallsOf
        (submitIntent (ChatState.mk [] "hello" true false none) 0 .ok .ok).2
        = [(jsTrim (ChatState.mk [] "hello" true false none).inputValue, "user", 0),
           (botTemplate (jsTrim (ChatState.mk [] "hello" true false none).inputValue),
             "bot", 0 + 1000)]
      ∧ botTemplate "hello"
        = "\"hello\" 라고 입력하셨습니다. 저는 고전적인 봇입니다.") :=
  ⟨by decide,
    claim_submit_persist_calls (ChatState.mk [] "hello" true false none) 0 .ok .ok
      (by decide) rfl rfl⟩

/-- C6 counterexample: the incoming message lacks an id and no existing
entry shares its (sender, text, timestamp) fallback key, so the claimed
fallback dedup would append it — but the code drops it, because its
id-only comparison treats two absent ids as equal.  The spec-worded
variant appends. -/
theorem claim_fallback_dedup_counterexample :
    msgB.id = none
    ∧ ¬(msgA.sender = msgB.sender ∧ msgA.text = msgB.text
        ∧ msgA.timestamp = msgB.timestamp)
    ∧ onRemoteInsert [msgA] msgB = [msgA]
    ∧ onRemoteInsertSpec [msgA] msgB = [msgA, msgB] := by
  decide

/-- C6 amended: onRemoteInsert dedups by the id field alone, two absent
ids comparing equal; there is no (sender, text, timestamp) fallback
dedup — that key appears only as the render key of the message list. -/
theorem claim_dedup_by_id_only (prev : List Message) (m : Message) :
    ((∃ x ∈ prev, x.id = m.id) → onRemoteInsert prev m = prev)
    ∧ ((¬∃ x ∈ prev, x.id = m.id) → onRemoteInsert prev m = prev ++ [m]) := by
  constructor
  · rintro ⟨x, hx, hxe⟩
    apply onRemoteInsert_dup_noop
    simp only [visibleIds, List.mem_map]
    exact ⟨x, hx, hxe⟩
  · intro h
    apply onRemoteInsert_fresh
    intro hmem
    apply h
    simpa [visibleIds] using hmem

/-- Witness for claim_dedup_by_id_only: a same-id delivery is dropped. -/
theorem claim_dedup_by_id_only_witness :
    (∃ x ∈ [msgA], x.id = msgA.id)
    ∧ onRemoteInsert [msgA] msgA = [msgA] :=
  ⟨by decide, (claim_dedup_by_id_only [msgA] msgA).1 (by decide)⟩

/-- C9: opening an already-open widget re-runs nothing (the effect's
dependency did not change), a single open does exactly one fetch and one
subscribe, and the matching close removes exactly that subscription and
fetches nothing further. -/
theorem claim_open_idempotent (w : WidgetSys) (h : w.isOpen = false) :
    openWidget (openWidget w) = openWidget w
    ∧ (openWidget w).fetchCount = w.fetchCount + 1
    ∧ (openWidget w).subsCreated = w.subsCreated + 1
    ∧ (openWidget w).activeSubs = w.activeSubs + 1
    ∧ (closeWidget (openWidget w)).activeSubs = w.activeSubs
    ∧ (closeWidget (openWidget w)).fetchCount = (openWidget w).fetchCount := by
  simp [openWidget, closeWidget, h]

/-- Witness for claim_open_idempotent from the freshly mounted system. -/
theorem claim_open_idempotent_witness :
    (WidgetSys.mk false 0 0 0).isOpen = false
    ∧ (openWidget (openWidget (WidgetSys.mk false 0 0 0))
          = openWidget (WidgetSys.mk false 0 0 0)
      ∧ (openWidget (WidgetSys.mk false 0 0 0)).fetchCount
          = (WidgetSys.mk false 0 0 0).fetchCount + 1
      ∧ (openWidget (WidgetSys.mk false 0 0 0)).subsCreated
          = (WidgetSys.mk false 0 0 0).subsCreated + 1
      ∧ (openWidget (WidgetSys.mk false 0 0 0)).activeSubs
          = (WidgetSys.mk false 0 0 0).activeSubs + 1
      ∧ (closeWidget (openWidget (WidgetSys.mk false 0 0 0))).activeSubs
          = (WidgetSys.mk false 0 0 0).activeSubs
      ∧ (closeWidget (openWidget (WidgetSys.mk false 0 0 0))).fetchCount
          = (openWidget (WidgetSys.mk false 0 0 0)).fetchCount) :=
  ⟨rfl, claim_open_idempotent (WidgetSys.mk false 0 0 0) rfl⟩

/-- C10: even when the user-message persist fails (returned error or
thrown exception), the failure is logged and swallowed, the save settles,
the 1000 ms timer is still scheduled, and the bot persist embedding the
user's trimmed text is still issued at t0 + 1000. -/
theorem claim_bot_reply_despite_failure (st : ChatState) (t0 : Nat)
    (u b : StoreResult) (hu : u ≠ .ok) (hin : jsTrim st.inputValue ≠ "")
    (hl : st.loading = false) (he : st.error = none) :
    SubmitEvent.errorLogged t0 ∈ (submitIntent st t0 u b).2
    ∧ SubmitEvent.persistSettled t0 ∈ (submitIntent st t0 u b).2
    ∧ SubmitEvent.timerScheduled 1000 t0 ∈ (submitIntent st t0 u b).2
    ∧ (botTemplate (jsTrim st.inputValue), "bot", t0 + 1000)
        ∈ persistCallsOf (submitIntent st t0 u b).2 := by
  unfold submitIntent handleSendMessage
  simp only [hl, he, Option.isSome_none, Bool.or_false]
  cases u with
  | ok => exact absurd rfl hu
  | queryError =>
    cases b <;> simp [saveMessageToSupabase, persistCallsOf, hin]
  | thrown =>
    cases b <;> simp [saveMessageToSupabase, persistCallsOf, hin]

/-- Witness for claim_bot_reply_despite_failure: user persist rejected. -/
theorem claim_bot_reply_despite_failure_witness :
    StoreResult.queryError ≠ StoreResult.ok
    ∧ (SubmitEvent.errorLogged 0
        ∈ (submitIntent (ChatState.mk [] "hello" true false none) 0
            .queryError .ok).2
      ∧ SubmitEvent.persistSettled 0
        ∈ (submitIntent (ChatState.mk [] "hello" true false none) 0
            .queryError .ok).2
      ∧ SubmitEvent.timerScheduled 1000 0
        ∈ (submitIntent (ChatState.mk [] "hello" true false none) 0
            .queryError .ok).2
      ∧ (botTemplate (jsTrim (ChatState.mk [] "hello" true false none).inputValue),
          "bot", 0 + 1000)
        ∈ persistCallsOf ((submitIntent (ChatState.mk [] "hello" true false none) 0
            .queryError .ok).2)) :=
  ⟨by decide,
    claim_bot_reply_despite_failure (ChatState.mk [] "hello" true false none) 0
      .queryError .ok (by decide) (by decide) rfl rfl⟩

/-- C7 counterexample: on the draft "hello" the input clear is NOT issued
before the user persist call settles — the handler awaits the save first,
so the clear comes strictly after the call completes. -/
theorem claim_clear_before_settle_counterexample :
    jsTrim (ChatState.mk [] "hello" true false none).inputValue ≠ ""
    ∧ ¬ clearBeforeUserSettle
        (submitIntent (ChatState.mk [] "hello" true false none) 0 .ok .ok).2 0 := by
  constructor
  · decide
  · decide

/-- C7 amended: the draft is cleared unconditionally, right after the
user persist settles — after the insert call completes (success and
failure alike), not gated on the remote call's outcome. -/
theorem claim_clear_after_settle (st : ChatState) (t0 : Nat)
    (u b : StoreResult) (hin : jsTrim st.inputValue ≠ "")
    (hl : st.loading = false) (he : st.error = none) :
    userSettleBeforeClear (submitIntent st t0 u b).2 t0
    ∧ (submitIntent st t0 u b).1.inputValue = "" := by
  have htr : (submitIntent st t0 u b).2
      = saveMessageToSupabase (jsTrim st.inputValue) "user" t0 u
        ++ [SubmitEvent.clearInput t0, SubmitEvent.timerScheduled 1000 t0]
        ++ saveMessageToSupabase (botTemplate (jsTrim st.inputValue)) "bot"
            (t0 + 1000) b := by
    unfold submitIntent handleSendMessage
    simp [hl, he, hin]
  have hst : (submitIntent st t0 u b).1.inputValue = "" := by
    unfold submitIntent handleSendMessage
    simp [hl, he, hin]
  refine ⟨?_, hst⟩
  rw [htr]
  cases u <;>
    simp only [saveMessageToSupabase, List.cons_append, List.nil_append] <;>
    unfold userSettleBeforeClear <;>
    first
    | exact ⟨⟨1, by simp⟩, ⟨2, by simp⟩, by norm_num, rfl, rfl⟩
    | exact ⟨⟨2, by simp⟩, ⟨3, by simp⟩, by norm_num, rfl, rfl⟩

/-- Witness for claim_clear_after_settle, with a failing user persist. -/
theorem claim_clear_after_settle_witness :
    jsTrim (ChatState.mk [] "hello" true false none).inputValue ≠ ""
    ∧ userSettleBeforeClear
        (submitIntent (ChatState.mk [] "hello" true false none) 0
          .queryError .ok).2 0
    ∧ (submitIntent (ChatState.mk [] "hello" true false none) 0
        .queryError .ok).1.inputValue = "" := by
  refine ⟨by decide, ?_, ?_⟩
  · exact (claim_clear_after_settle (ChatState.mk [] "hello" true false none) 0
      .queryError .ok (by decide) rfl rfl).1
  · exact (claim_clear_after_settle (ChatState.mk [] "hello" true false none) 0
      .queryError .ok (by decide) rfl rfl).2

/-- C8: the message area renders by strict priority — loading
placeholder, else error placeholder, else the greeting stamped with the
current local time when the history is empty, else the mapped message
list showing each sender label, text, and hour:minute timestamp; the
clock is 24-hour (hour below 24, minute below 60, no AM/PM marker). -/
theorem claim_render_priority (st : ChatState) (now : Nat) (e : String) :
    (st.loading = true → renderMessages st now = .loadingPlaceholder)
    ∧ (st.loading = false → st.error = some e →
        renderMessages st now = .errorPlaceholder e)
    ∧ (st.loading = false → st.error = none → st.messages = [] →
        renderMessages st now = .greeting (formatHM now))
    ∧ (st.loading = false → st.error = none → st.messages ≠ [] →
        renderMessages st now = .messageList (st.messages.map fun m =>
          (senderLabel m.sender, m.text, formatHM m.timestamp)))
    ∧ (formatHM now).1 < 24 ∧ (formatHM now).2 < 60 := by
  refine ⟨?_, ?_, ?_, ?_, ?_, ?_⟩
  · intro h
    simp [renderMessages, h]
  · intro h1 h2
    simp [renderMessages, h1, h2]
  · intro h1 h2 h3
    simp [renderMessages, h1, h2, h3]
  · intro h1 h2 h3
    simp [renderMessages, h1, h2, h3]
  · simp only [formatHM]
    exact Nat.mod_lt _ (by norm_num)
  · simp only [formatHM]
    exact Nat.mod_lt _ (by norm_num)

/-- Witness for claim_render_priority: the loading branch wins. -/
theorem claim_render_priority_witness :
    (ChatState.mk [] "" true true none).loading = true
    ∧ renderMessages (ChatState.mk [] "" true true none) 0
        = .loadingPlaceholder :=
  ⟨rfl, (claim_render_priority (ChatState.mk [] "" true true none) 0 "x").1 rfl⟩
